import Mathlib

/-!
Verification of the skywallet daemon lifecycle coordinator
(`src/daemon/daemon.go`) and its generated `TransactionInput` model.

The Go code is shallowly embedded: every external, fallible collaborator
call made by `Daemon.Run` (log-level parsing, log-file opening, CPU-profile
setup, server construction, and the quit-or-serve-error select) is an input
fixed ahead of time in a `RunEnv` record, and `Daemon.Run` is a pure
function from a `RunEnv` to the returned error together with the ordered
trace of observable events of that run.
-/

namespace SkyWalletDaemon

/-- Go `error` values are modelled by their message strings. -/
abbrev GoError := String

/-- Opaque handle for an open `*os.File`. -/
abbrev FileHandle := Nat

/-- Opaque handle for an `*api.Server`. -/
abbrev ServerHandle := Nat

/-- Opaque log level produced by `logging.LevelFromString`. -/
abbrev LogLevel := Nat

/-- Outcome of the `select` at daemon.go lines 115-119: either the quit
channel fired first (`<-quit`) or the serve goroutine delivered an error
first (`retErr = <-errC`). -/
inductive SelectOutcome where
  | quit
  | serveErr (e : GoError)
deriving DecidableEq, Repr

/-- Observable events of one execution of `Daemon.Run`, in program order.
Only the events the specification talks about are recorded. -/
inductive Ev where
  /-- A `d.logger.Error(...)` call. -/
  | logError
  /-- The log file was opened by `d.initLogFile()` (line 57 succeeded). -/
  | logFileOpen
  /-- `logFile.Close()` at line 135. -/
  | logFileClose
  /-- `pprof.StartCPUProfile(f)` succeeded (line 73). -/
  | cpuProfileStart
  /-- The deferred `pprof.StopCPUProfile()` ran (line 77). -/
  | cpuProfileStop
  /-- `d.createServer(...)` was invoked (line 98). -/
  | createServerCall
  /-- The serve-loop goroutine was launched (`go func` at line 106). -/
  | serveStart
  /-- `apiServer.Shutdown()` at line 125. -/
  | shutdownCall
  /-- `wg.Wait()` at line 129 returned: the worker goroutine was joined. -/
  | wgWaitDone
deriving DecidableEq, Repr

/-- One run environment: the configuration flags read by `Daemon.Run`
together with the result of every fallible external call of that run. -/
structure RunEnv where
  /-- Result of `logging.LevelFromString(d.config.App.LogLevel)` (line 39). -/
  levelFromString : Except GoError LogLevel
  /-- `d.config.App.ColorLog` (line 48); selects color mode, no other effect. -/
  colorLog : Bool
  /-- `d.config.App.LogToFile` (line 55). -/
  logToFile : Bool
  /-- Result of `d.initLogFile()` (line 57), used only when `logToFile`. -/
  initLogFile : Except GoError FileHandle
  /-- `d.config.App.ProfileCPU` (line 66). -/
  profileCPU : Bool
  /-- Result of `os.Create(d.config.App.ProfileCPUFile)` (line 67). -/
  profileFileCreate : Except GoError FileHandle
  /-- Error of `pprof.StartCPUProfile(f)` (line 73); `none` means success. -/
  startCPUProfile : Option GoError
  /-- `d.config.App.HTTPProf` (line 80); spawns a fire-and-forget goroutine
  whose failure is only logged, with no effect on the modelled trace. -/
  httpProf : Bool
  /-- Result of `d.createServer(host, ...)` (line 98). -/
  createServer : Except GoError ServerHandle
  /-- Which arm of the `select` (lines 115-119) fires first. -/
  select : SelectOutcome
  /-- Error returned by `apiServer.Serve()` when it unblocks after
  `Shutdown` on the quit path; it is logged by the worker and sent into the
  buffered `errC` (lines 109-112) but never read by `Run`. -/
  serveAfterShutdown : Option GoError

/-- Whether an `Except` result is a success. -/
def isOk {α : Type} : Except GoError α → Bool
  | .ok _ => true
  | .error _ => false

/-- Lines 131-140 of `Daemon.Run` (`earlyShutdown` label): close the log
file when one was opened, then return `retErr`. -/
def earlyShutdown (logFileOpened : Bool) (retErr : Option GoError) :
    Option GoError × List Ev :=
  (retErr, if logFileOpened then [Ev.logFileClose] else [])

/-- Lines 98-129 of `Daemon.Run`: construct the server; on failure `goto
earlyShutdown` with `retErr` set to the construction error, otherwise
launch the serve goroutine, block on the select, shut the server down and
join the worker before falling through to `earlyShutdown`. -/
def runServe (env : RunEnv) (logFileOpened : Bool) :
    Option GoError × List Ev :=
  match env.createServer with
  | .error e =>
      let (r, evs) := earlyShutdown logFileOpened (some e)
      (r, Ev.createServerCall :: Ev.logError :: evs)
  | .ok _ =>
      match env.select with
      | .quit =>
          let (r, evs) := earlyShutdown logFileOpened none
          let workerTail :=
            match env.serveAfterShutdown with
            | some _ => [Ev.logError]
            | none => []
          (r, Ev.createServerCall :: Ev.serveStart :: Ev.shutdownCall ::
                (workerTail ++ Ev.wgWaitDone :: evs))
      | .serveErr e =>
          let (r, evs) := earlyShutdown logFileOpened (some e)
          (r, Ev.createServerCall :: Ev.serveStart :: Ev.logError ::
                Ev.logError :: Ev.shutdownCall :: Ev.wgWaitDone :: evs)

/-- Lines 66-86 of `Daemon.Run`: optional CPU profiling.  A failure of
`os.Create` or `pprof.StartCPUProfile` is logged and returned immediately,
skipping the `earlyShutdown` cleanup entirely; on success
`pprof.StopCPUProfile` is deferred, so it runs after the function body on
every later exit path. -/
def runProfile (env : RunEnv) (logFileOpened : Bool) :
    Option GoError × List Ev :=
  if env.profileCPU then
    match env.profileFileCreate with
    | .error e => (some e, [Ev.logError])
    | .ok _ =>
        match env.startCPUProfile with
        | some e => (some e, [Ev.logError])
        | none =>
            let (r, evs) := runServe env logFileOpened
            (r, Ev.cpuProfileStart :: (evs ++ [Ev.cpuProfileStop]))
  else
    runServe env logFileOpened

/-- `Daemon.Run` (daemon.go lines 34-141) as a function of the run
environment, returning the `error` of the run and the trace of events. -/
def DaemonRun (env : RunEnv) : Option GoError × List Ev :=
  match env.levelFromString with
  | .error e =>
      (some ("invalid -log-level: " ++ e), [Ev.logError])
  | .ok _ =>
      if env.logToFile then
        match env.initLogFile with
        | .error e => (some e, [Ev.logError])
        | .ok _ =>
            let (r, evs) := runProfile env true
            (r, Ev.logFileOpen :: evs)
      else
        runProfile env false

/-- Control reaches the `d.createServer` call at line 98: the log level
parsed, the log file (when requested) opened, and CPU profiling (when
requested) started. -/
def reachesCreateServer (env : RunEnv) : Bool :=
  isOk env.levelFromString &&
  (!env.logToFile || isOk env.initLogFile) &&
  (!env.profileCPU ||
    (isOk env.profileFileCreate && env.startCPUProfile.isNone))

/-- Control reaches the `select` at line 115: the server was constructed. -/
def reachesSelect (env : RunEnv) : Bool :=
  reachesCreateServer env && isOk env.createServer

/-- The run opened a log file that stays live past line 62. -/
def logFileOpened (env : RunEnv) : Bool :=
  env.logToFile && isOk env.initLogFile

/-- The CPU-profiling setup of lines 66-78 was requested and failed,
either at `os.Create` or at `pprof.StartCPUProfile`. -/
def cpuSetupFailed (env : RunEnv) : Bool :=
  env.profileCPU &&
    (!(isOk env.profileFileCreate) || env.startCPUProfile.isSome)

/-- The error, if any, with which the CPU-profiling setup of lines 66-78
fails. -/
def cpuProfileFailure (env : RunEnv) : Option GoError :=
  if env.profileCPU then
    match env.profileFileCreate with
    | .error e => some e
    | .ok _ => env.startCPUProfile
  else none

/-- Every occurrence of `b` in the list is preceded by an occurrence of
`a`: scanning left to right, `b` is never met before the first `a`. -/
def eachPrecededBy (b a : Ev) : List Ev → Bool
  | [] => true
  | x :: xs =>
      if x = a then true
      else if x = b then false
      else eachPrecededBy b a xs

/-! ## The log-file path built by `Daemon.initLogFile` (lines 143-164) -/

/-- A wall-clock instant as read by Go `time.Now()`, at second precision.
`hour` is the 24-hour clock hour, `0 ≤ hour < 24`. -/
structure GoTime where
  year : Nat
  month : Nat
  day : Nat
  hour : Nat
  minute : Nat
  second : Nat
deriving DecidableEq, Repr

/-- Decimal rendering zero-padded to width 2, as Go layout fields
`01`, `02`, `03`, `04`, `05` render their values. -/
def pad2 (n : Nat) : String :=
  if n < 10 then "0" ++ toString n else toString n

/-- Decimal rendering zero-padded to width 4, as Go layout field `2006`
renders the year. -/
def pad4 (n : Nat) : String :=
  if n < 10 then "000" ++ toString n
  else if n < 100 then "00" ++ toString n
  else if n < 1000 then "0" ++ toString n
  else toString n

/-- The hour on the 12-hour clock, as Go layout field `03` renders it:
hours 0 and 12 render as 12, hour 13 as 01, and so on. -/
def hour12 (h : Nat) : Nat :=
  if h % 12 = 0 then 12 else h % 12

/-- Go `time.Format` applied to the layout string `"2006-01-02-030405"`
used at daemon.go line 151.  In Go reference-time layouts `2006` is the
year, `01` the month, `02` the day, `03` the hour on the TWELVE-hour
clock, `04` the minute and `05` the second. -/
def goFormatLayout_030405 (t : GoTime) : String :=
  pad4 t.year ++ "-" ++ pad2 t.month ++ "-" ++ pad2 t.day ++ "-" ++
    pad2 (hour12 t.hour) ++ pad2 t.minute ++ pad2 t.second

/-- `filepath.Join` restricted to the non-empty, already-clean relative
components this code passes it: separator insertion, no cleaning. -/
def filepathJoin (a b : String) : String := a ++ "/" ++ b

/-- The directory `filepath.Join(d.config.App.DataDirectory, "logs")`
(line 144). -/
def logDirOf (dataDirectory : String) : String :=
  filepathJoin dataDirectory "logs"

/-- The full log-file path built by `Daemon.initLogFile` (lines 151-152)
when the clock reads `t`. -/
def initLogFilePath (dataDirectory : String) (t : GoTime) : String :=
  filepathJoin (logDirOf dataDirectory)
    (goFormatLayout_030405 t ++ ".log")

/-- Modelled from the spec sentence cited by claim C3: the timestamp in
the form `YYYY-MM-DD-HHMMSS` with a 24-hour hour field, as the claim
states the file name. -/
def claimedTimestamp24h (t : GoTime) : String :=
  pad4 t.year ++ "-" ++ pad2 t.month ++ "-" ++ pad2 t.day ++ "-" ++
    pad2 t.hour ++ pad2 t.minute ++ pad2 t.second

/-- The 12-hour-clock hour written the way the amended claim describes it:
midnight and noon show as 12, afternoon hours drop 12. -/
def amendedHourField (h : Nat) : Nat :=
  if h = 0 then 12
  else if h ≤ 12 then h
  else h - 12

/-- The timestamp the amended claim C3 describes: `YYYY-MM-DD-hhmmss`
where `hh` is the 12-hour-clock hour with no AM/PM marker. -/
def amendedTimestamp12h (t : GoTime) : String :=
  pad4 t.year ++ "-" ++ pad2 t.month ++ "-" ++ pad2 t.day ++ "-" ++
    pad2 (amendedHourField t.hour) ++ pad2 t.minute ++ pad2 t.second

/-! ## `createDirIfNotExist` (lines 166-172) -/

/-- Outcome of the `os.Stat(dir)` call at line 167. -/
inductive StatResult where
  /-- The path exists and stat succeeded. -/
  | ok
  /-- Stat failed with a does-not-exist error. -/
  | errNotExist
  /-- Stat failed with any other error, e.g. a permission error. -/
  | errOther (e : GoError)
deriving DecidableEq, Repr

/-- `os.IsNotExist` applied to the stat outcome; `os.IsNotExist(nil)` is
false. -/
def osIsNotExist : StatResult → Bool
  | .errNotExist => true
  | _ => false

/-- `createDirIfNotExist` (lines 166-172) as a function of the stat
outcome and of what `os.Mkdir(dir, 0750)` would return (`none` meaning
success).  Returns the function result paired with whether `os.Mkdir` was
attempted. -/
def createDirIfNotExist (stat : StatResult) (mkdir : Option GoError) :
    Option GoError × Bool :=
  if !(osIsNotExist stat) then (none, false)
  else (mkdir, true)

/-! ## Generated model `TransactionInput` (go-swagger output) -/

/-- The generated `TransactionInput` struct: two required pointer fields,
`nil` modelled as `none`. -/
structure TransactionInput where
  hash : Option String
  index : Option Int
deriving DecidableEq, Repr

/-- `validate.Required(path, in, data)` of go-openapi on a pointer field:
it fails exactly when the pointer is nil, with message
`"<path> in <in> is required"`. -/
def validateRequired (path inLoc : String) (present : Bool) :
    Option GoError :=
  if present then none
  else some (path ++ " in " ++ inLoc ++ " is required")

/-- `(m *TransactionInput) validateHash` (lines 245-252). -/
def TransactionInput.validateHash (m : TransactionInput) :
    Option GoError :=
  validateRequired "hash" "body" m.hash.isSome

/-- `(m *TransactionInput) validateIndex` (lines 254-261). -/
def TransactionInput.validateIndex (m : TransactionInput) :
    Option GoError :=
  validateRequired "index" "body" m.index.isSome

/-- `(m *TransactionInput) Validate` (lines 228-243): collect the field
errors; `some errs` models the `CompositeValidationError(res...)` built
from the non-empty list, `none` models the `nil` return. -/
def TransactionInput.Validate (m : TransactionInput) :
    Option (List GoError) :=
  let res : List GoError := []
  let res := match m.validateHash with
    | some e => res ++ [e]
    | none => res
  let res := match m.validateIndex with
    | some e => res ++ [e]
    | none => res
  if res.length > 0 then some res else none

/-! ## Concrete run environments used to instantiate the theorems -/

/-- A fully successful run environment: everything enabled is off, every
external call succeeds, and the quit signal ends the run. -/
def baseEnv : RunEnv :=
  { levelFromString := .ok 0
    colorLog := false
    logToFile := false
    initLogFile := .ok 1
    profileCPU := false
    profileFileCreate := .ok 2
    startCPUProfile := none
    httpProf := false
    createServer := .ok 3
    select := .quit
    serveAfterShutdown := none }

/-- A run with file logging on, CPU profiling on, and `os.Create` of the
profile file failing. -/
def logAndProfileFailEnv : RunEnv :=
  { baseEnv with
      logToFile := true
      profileCPU := true
      profileFileCreate := .error "boom" }

/-- A run with CPU profiling on and `os.Create` of the profile file
failing. -/
def profileFailEnv : RunEnv :=
  { baseEnv with
      profileCPU := true
      profileFileCreate := .error "boom" }

/-- A run with file logging on that ends on the quit signal. -/
def logQuitEnv : RunEnv :=
  { baseEnv with logToFile := true }

/-- A run with file logging on whose serve loop fails. -/
def logServeErrEnv : RunEnv :=
  { baseEnv with
      logToFile := true
      select := .serveErr "serve failed" }

/-- A run with file logging on whose server construction fails. -/
def logCreateFailEnv : RunEnv :=
  { baseEnv with
      logToFile := true
      createServer := .error "device not found" }

/-- A run whose log-level string does not parse. -/
def badLevelEnv : RunEnv :=
  { baseEnv with levelFromString := .error "bad level" }

/-! ## Claim theorems -/

/-- C7: if the server is constructed and the quit notification fires
before any serve-loop error, `Daemon.Run` returns nil and `Shutdown` is
called exactly once before `Run` returns. -/
theorem C7_quit_returns_nil (env : RunEnv)
    (hr : reachesCreateServer env = true)
    (hok : isOk env.createServer = true)
    (hsel : env.select = SelectOutcome.quit) :
    (DaemonRun env).1 = none ∧
    (DaemonRun env).2.count Ev.shutdownCall = 1 := by
  obtain ⟨lvl, color, ltf, ilf, pcpu, pfc, scp, hp, cs, sel, sas⟩ := env
  cases lvl <;> cases ltf <;> cases ilf <;> cases pcpu <;> cases pfc <;>
    cases scp <;> cases cs <;> cases sel <;> cases sas <;>
    simp_all [DaemonRun, runProfile, runServe, earlyShutdown,
      reachesCreateServer, isOk, List.count_cons, List.count_append]

/-- C7 witness: instantiation at a concrete quit-path run. -/
theorem C7_witness :
    (DaemonRun logQuitEnv).1 = none ∧
    (DaemonRun logQuitEnv).2.count Ev.shutdownCall = 1 :=
  C7_quit_returns_nil logQuitEnv rfl rfl rfl

/-- C6: if the server is constructed and the serve loop then returns an
error, `Daemon.Run` returns exactly that error and `Shutdown` is called
exactly once before `Run` returns. -/
theorem C6_serve_error_propagates (env : RunEnv) (e : GoError)
    (hr : reachesCreateServer env = true)
    (hok : isOk env.createServer = true)
    (hsel : env.select = SelectOutcome.serveErr e) :
    (DaemonRun env).1 = some e ∧
    (DaemonRun env).2.count Ev.shutdownCall = 1 := by
  obtain ⟨lvl, color, ltf, ilf, pcpu, pfc, scp, hp, cs, sel, sas⟩ := env
  cases lvl <;> cases ltf <;> cases ilf <;> cases pcpu <;> cases pfc <;>
    cases scp <;> cases cs <;> cases sel <;> cases sas <;>
    simp_all [DaemonRun, runProfile, runServe, earlyShutdown,
      reachesCreateServer, isOk, List.count_cons, List.count_append]

/-- C6 witness: instantiation at a concrete serve-error run. -/
theorem C6_witness :
    (DaemonRun logServeErrEnv).1 = some "serve failed" ∧
    (DaemonRun logServeErrEnv).2.count Ev.shutdownCall = 1 :=
  C6_serve_error_propagates logServeErrEnv "serve failed" rfl rfl rfl

/-- C5: if server construction fails, `Daemon.Run` returns that
construction error, `Shutdown` is never called, and the log file, when one
was opened, is still closed exactly once. -/
theorem C5_construction_failure (env : RunEnv) (e : GoError)
    (hr : reachesCreateServer env = true)
    (hcs : env.createServer = Except.error e) :
    (DaemonRun env).1 = some e ∧
    (DaemonRun env).2.count Ev.shutdownCall = 0 ∧
    (DaemonRun env).2.count Ev.logFileClose =
      (if logFileOpened env then 1 else 0) := by
  obtain ⟨lvl, color, ltf, ilf, pcpu, pfc, scp, hp, cs, sel, sas⟩ := env
  cases lvl <;> cases ltf <;> cases ilf <;> cases pcpu <;> cases pfc <;>
    cases scp <;> cases cs <;> cases sel <;> cases sas <;>
    simp_all [DaemonRun, runProfile, runServe, earlyShutdown,
      reachesCreateServer, logFileOpened, isOk,
      List.count_cons, List.count_append]

/-- C5 witness: instantiation at a concrete construction-failure run with
a log file open. -/
theorem C5_witness :
    (DaemonRun logCreateFailEnv).1 = some "device not found" ∧
    (DaemonRun logCreateFailEnv).2.count Ev.shutdownCall = 0 ∧
    (DaemonRun logCreateFailEnv).2.count Ev.logFileClose =
      (if logFileOpened logCreateFailEnv then 1 else 0) :=
  C5_construction_failure logCreateFailEnv "device not found" rfl rfl

/-- C4: an invalid log-level string makes `Daemon.Run` return a
configuration error naming the flag, and the server-construction call is
never reached on that run. -/
theorem C4_invalid_loglevel (env : RunEnv) (e : GoError)
    (h : env.levelFromString = Except.error e) :
    (DaemonRun env).1 = some ("invalid -log-level: " ++ e) ∧
    (DaemonRun env).2.count Ev.createServerCall = 0 := by
  simp [DaemonRun, h, List.count_cons]

/-- C4 witness: instantiation at a concrete bad-log-level run. -/
theorem C4_witness :
    (DaemonRun badLevelEnv).1 = some ("invalid -log-level: " ++ "bad level") ∧
    (DaemonRun badLevelEnv).2.count Ev.createServerCall = 0 :=
  C4_invalid_loglevel badLevelEnv "bad level" rfl

/-- C1 counterexample: a run in which file logging is enabled and the log
file opens, but CPU profiling is enabled and its profile file fails to
create; `Run` returns on that path without ever closing the log file, so
the log file is NOT closed on every exit path. -/
theorem C1_counterexample :
    (DaemonRun logAndProfileFailEnv).2.count Ev.logFileOpen = 1 ∧
    (DaemonRun logAndProfileFailEnv).2.count Ev.logFileClose = 0 := by
  decide

/-- C1 amended: when the log level parses and a log file is opened, the
log file is closed exactly once on every exit path EXCEPT the
CPU-profiling setup failures, where `Run` returns without closing it. -/
theorem C1_amended_logfile_close (env : RunEnv)
    (hl : isOk env.levelFromString = true)
    (ho : logFileOpened env = true) :
    (DaemonRun env).2.count Ev.logFileOpen = 1 ∧
    (DaemonRun env).2.count Ev.logFileClose =
      (if cpuSetupFailed env then 0 else 1) := by
  obtain ⟨lvl, color, ltf, ilf, pcpu, pfc, scp, hp, cs, sel, sas⟩ := env
  cases lvl <;> cases ltf <;> cases ilf <;> cases pcpu <;> cases pfc <;>
    cases scp <;> cases cs <;> cases sel <;> cases sas <;>
    simp_all [DaemonRun, runProfile, runServe, earlyShutdown,
      logFileOpened, cpuSetupFailed, isOk,
      List.count_cons, List.count_append]

/-- C1 witness: instantiation of the amended claim at a concrete run with
file logging on and no CPU profiling. -/
theorem C1_witness :
    (DaemonRun logQuitEnv).2.count Ev.logFileOpen = 1 ∧
    (DaemonRun logQuitEnv).2.count Ev.logFileClose =
      (if cpuSetupFailed logQuitEnv then 0 else 1) :=
  C1_amended_logfile_close logQuitEnv rfl rfl

/-- C2 counterexample: a run with CPU profiling enabled whose profile-file
creation fails; `Run` returns that failure as its error and never reaches
server construction, so the failure IS fatal. -/
theorem C2_counterexample :
    (DaemonRun profileFailEnv).1 = some "boom" ∧
    (DaemonRun profileFailEnv).2.count Ev.createServerCall = 0 := by
  decide

/-- C2 amended: with CPU profiling enabled, a failure to create the
profile file or to start the profiler is logged AND fatal: `Daemon.Run`
returns that failure as its error immediately and the server is never
constructed. -/
theorem C2_amended_profile_fatal (env : RunEnv) (e : GoError)
    (hl : isOk env.levelFromString = true)
    (hlog : (!env.logToFile || isOk env.initLogFile) = true)
    (hfail : cpuProfileFailure env = some e) :
    (DaemonRun env).1 = some e ∧
    (DaemonRun env).2.count Ev.createServerCall = 0 ∧
    Ev.logError ∈ (DaemonRun env).2 := by
  obtain ⟨lvl, color, ltf, ilf, pcpu, pfc, scp, hp, cs, sel, sas⟩ := env
  cases lvl <;> cases ltf <;> cases ilf <;> cases pcpu <;> cases pfc <;>
    cases scp <;> cases cs <;> cases sel <;> cases sas <;>
    simp_all [DaemonRun, runProfile, runServe, earlyShutdown,
      cpuProfileFailure, isOk, List.count_cons, List.count_append]

/-- C2 witness: instantiation of the amended claim at a concrete
profile-file-creation failure. -/
theorem C2_witness :
    (DaemonRun logAndProfileFailEnv).1 = some "boom" ∧
    (DaemonRun logAndProfileFailEnv).2.count Ev.createServerCall = 0 ∧
    Ev.logError ∈ (DaemonRun logAndProfileFailEnv).2 :=
  C2_amended_profile_fatal logAndProfileFailEnv "boom" rfl rfl rfl

/-- C8: `Shutdown` is called only when the server handle exists (every
`shutdownCall` in the trace follows the successful `createServer` call),
and on both the interrupt path and the serve-error path the worker
goroutine is joined before the log file is closed and before `Run`
returns. -/
theorem C8_shutdown_join_ordering (env : RunEnv) :
    (Ev.shutdownCall ∈ (DaemonRun env).2 →
      isOk env.createServer = true ∧
      eachPrecededBy Ev.shutdownCall Ev.createServerCall
        (DaemonRun env).2 = true) ∧
    (reachesSelect env = true →
      Ev.wgWaitDone ∈ (DaemonRun env).2 ∧
      eachPrecededBy Ev.logFileClose Ev.wgWaitDone
        (DaemonRun env).2 = true) := by
  obtain ⟨lvl, color, ltf, ilf, pcpu, pfc, scp, hp, cs, sel, sas⟩ := env
  cases lvl <;> cases ltf <;> cases ilf <;> cases pcpu <;> cases pfc <;>
    cases scp <;> cases cs <;> cases sel <;> cases sas <;>
    simp_all [DaemonRun, runProfile, runServe, earlyShutdown,
      reachesSelect, reachesCreateServer, isOk, eachPrecededBy]

/-- C8 witness: instantiation at a concrete serve-error run with a log
file open, discharging both implications. -/
theorem C8_witness :
    (isOk logServeErrEnv.createServer = true ∧
      eachPrecededBy Ev.shutdownCall Ev.createServerCall
        (DaemonRun logServeErrEnv).2 = true) ∧
    (Ev.wgWaitDone ∈ (DaemonRun logServeErrEnv).2 ∧
      eachPrecededBy Ev.logFileClose Ev.wgWaitDone
        (DaemonRun logServeErrEnv).2 = true) :=
  ⟨(C8_shutdown_join_ordering logServeErrEnv).1 (by decide),
   (C8_shutdown_join_ordering logServeErrEnv).2 rfl⟩

/-- On the 24-hour clock, Go layout field `03` shows the hour exactly as
the 12-hour-clock description of the amended claim does. -/
theorem hour12_eq_amendedHourField :
    ∀ h < 24, hour12 h = amendedHourField h := by
  decide

/-- C3 counterexample: at one in the afternoon (hour 13) the file name
built by `initLogFile` uses the 12-hour field `01`, not the 24-hour field
`13` that the claim states, so the name differs from the claimed
`YYYY-MM-DD-HHMMSS.log` form. -/
theorem C3_counterexample :
    initLogFilePath "data" ⟨2019, 1, 2, 13, 4, 5⟩ ≠
      filepathJoin (logDirOf "data")
        (claimedTimestamp24h ⟨2019, 1, 2, 13, 4, 5⟩ ++ ".log") := by
  decide

/-- C3 amended: the log file lives under the fixed `logs` subdirectory of
the configured data directory and is named `YYYY-MM-DD-hhmmss.log`, where
`hh` is the hour on the TWELVE-hour clock (midnight and noon show as 12,
afternoon hours drop 12, no AM/PM marker). -/
theorem C3_amended_logfile_name (dataDirectory : String) (t : GoTime)
    (h : t.hour < 24) :
    logDirOf dataDirectory = dataDirectory ++ "/logs" ∧
    initLogFilePath dataDirectory t =
      filepathJoin (logDirOf dataDirectory)
        (amendedTimestamp12h t ++ ".log") := by
  refine ⟨?_, ?_⟩
  · simp [logDirOf, filepathJoin, String.append_assoc]
  · have h12 := hour12_eq_amendedHourField t.hour h
    simp [initLogFilePath, goFormatLayout_030405, amendedTimestamp12h, h12]

/-- C3 witness: instantiation of the amended claim at an afternoon
instant. -/
theorem C3_witness :
    logDirOf "data" = "data" ++ "/logs" ∧
    initLogFilePath "data" ⟨2019, 1, 2, 13, 4, 5⟩ =
      filepathJoin (logDirOf "data")
        (amendedTimestamp12h ⟨2019, 1, 2, 13, 4, 5⟩ ++ ".log") :=
  C3_amended_logfile_name "data" ⟨2019, 1, 2, 13, 4, 5⟩ (by decide)

/-- C9: `Validate` returns nil exactly when both required fields are
present, and when a field is nil the returned composite error names that
missing field; no other condition is imposed on the field values. -/
theorem C9_validate_required_fields (m : TransactionInput) :
    (m.Validate = none ↔ m.hash.isSome = true ∧ m.index.isSome = true) ∧
    (m.hash = none →
      "hash in body is required" ∈ m.Validate.getD []) ∧
    (m.index = none →
      "index in body is required" ∈ m.Validate.getD []) := by
  obtain ⟨h, i⟩ := m
  cases h <;> cases i <;>
    simp [TransactionInput.Validate, TransactionInput.validateHash,
      TransactionInput.validateIndex, validateRequired]

/-- C9 witness: instantiation at an input missing both fields. -/
theorem C9_witness :
    "hash in body is required" ∈
      (TransactionInput.Validate ⟨none, none⟩).getD [] ∧
    "index in body is required" ∈
      (TransactionInput.Validate ⟨none, none⟩).getD [] :=
  ⟨(C9_validate_required_fields ⟨none, none⟩).2.1 rfl,
   (C9_validate_required_fields ⟨none, none⟩).2.2 rfl⟩

/-- C10: `createDirIfNotExist` returns nil whenever stat yields anything
other than a does-not-exist error, a permission failure included, and it
attempts `os.Mkdir` exactly when the path does not exist. -/
theorem C10_createDirIfNotExist (stat : StatResult)
    (mkdir : Option GoError) :
    (stat ≠ StatResult.errNotExist →
      createDirIfNotExist stat mkdir = (none, false)) ∧
    (stat = StatResult.errNotExist →
      createDirIfNotExist stat mkdir = (mkdir, true)) := by
  cases stat <;> simp [createDirIfNotExist, osIsNotExist]

/-- C10 witness: a permission-denied stat is swallowed with no mkdir
attempt, and a does-not-exist stat surfaces the mkdir result. -/
theorem C10_witness :
    createDirIfNotExist (StatResult.errOther "permission denied")
        (some "mkdir failed") = (none, false) ∧
    createDirIfNotExist StatResult.errNotExist
        (some "mkdir failed") = (some "mkdir failed", true) :=
  ⟨(C10_createDirIfNotExist (StatResult.errOther "permission denied")
      (some "mkdir failed")).1 (by decide),
   (C10_createDirIfNotExist StatResult.errNotExist
      (some "mkdir failed")).2 rfl⟩

end SkyWalletDaemon
